import Mathlib

/-!
Shallow embedding of the Research Session Orchestration layer of
`gradio_app.py` (Enterprise Deep Research, Gradio interface).

The embedded code is the pure orchestration logic of `conduct_research`
(gradio_app.py lines 65-161), the provider catalog and model lookup
(lines 51-62), and the model-dropdown update handler (lines 341-344).

Python's dynamically-typed values (the engine's "raw result mapping" is a
dict with no guaranteed schema) are modelled by the `Value` type; a dict is
an association list `List (String × Value)`.  The external research engine
(`ResearchService.conduct_research`, an external collaborator outside this
file's source) is a parameter of type `EngineCall → Except String PyDict`:
`Except.error e` models the engine raising an exception whose `str` is `e`.

Observable effects of one invocation are collected in a `RunTrace`:
the returned `(report, sources, status)` triple, the list of engine calls
made, the environment-variable writes performed (lines 117-119), the
progress events emitted (`progress(fraction, desc=label)` calls), and the
warnings sent to the logger (line 111).
-/

namespace EDR

/-- A dynamically-typed Python value (the fragment needed by the embedded
code: strings, integers, booleans, lists, `None`). -/
inductive Value where
  | str : String → Value
  | int : Int → Value
  | bool : Bool → Value
  | list : List Value → Value
  | pynone : Value

/-- A Python dict with string keys, as an association list (first match wins,
like a dict whose keys are unique). -/
abbrev PyDict := List (String × Value)

/-- `d.get(k)` without default: `some v` when the key is present. -/
def lookupKey (d : PyDict) (k : String) : Option Value :=
  (d.find? (fun p => p.1 == k)).map (fun p => p.2)

/-- Python `d.get(k, dflt)`. -/
def dictGet (d : PyDict) (k : String) (dflt : Value) : Value :=
  (lookupKey d k).getD dflt

/-- Python truthiness of a `Value` (`if v:`). -/
def truthy : Value → Bool
  | .str s => !s.isEmpty
  | .int n => n != 0
  | .bool b => b
  | .list l => !l.isEmpty
  | .pynone => false

/-- Python iteration (`for x in v`): strings iterate over their characters,
lists over their elements; other values raise `TypeError`. -/
def pyIter : Value → Except String (List Value)
  | .str s => .ok (s.toList.map (fun c => .str (String.mk [c])))
  | .list l => .ok l
  | .int _ => .error "TypeError: \x27int\x27 object is not iterable"
  | .bool _ => .error "TypeError: \x27bool\x27 object is not iterable"
  | .pynone => .error "TypeError: \x27NoneType\x27 object is not iterable"

/-- Python `repr` of a `Value` (element rendering inside list display). -/
def pyRepr : Value → String
  | .str s => "\x27" ++ s ++ "\x27"
  | .int n => toString n
  | .bool b => if b then "True" else "False"
  | .list l => "[" ++ String.intercalate ", " (l.attach.map (fun x => pyRepr x.1)) ++ "]"
  | .pynone => "None"
decreasing_by
  have := List.sizeOf_lt_of_mem x.2
  simp only [Value.list.sizeOf_spec]
  omega

/-- Python `str` of a `Value` (as used by f-string interpolation). -/
def pyStr : Value → String
  | .str s => s
  | .int n => toString n
  | .bool b => if b then "True" else "False"
  | .list l => "[" ++ String.intercalate ", " (l.map pyRepr) ++ "]"
  | .pynone => "None"

/-- The four locals computed by the result-extraction block of
`conduct_research` (gradio_app.py lines 150-155). -/
structure Extracted where
  report : Value
  sourcesText : String
  loopCount : Value
  status : String

/-- Result extraction / formatting, gradio_app.py lines 150-155:

    report = result.get("running_summary", "No report generated")
    sources = result.get("sources_gathered", [])
    sources_text = "\n".join([f"- {source}" for source in sources]) if sources else "No sources gathered"
    loop_count = result.get("research_loop_count", 0)
    status = f"✅ Research complete! Conducted {loop_count} research loops."

`Except.error` models an exception escaping this block (possible only from
iterating a truthy non-iterable `sources`). -/
def extractResults (result : PyDict) : Except String Extracted := do
  let report := dictGet result "running_summary" (.str "No report generated")
  let sources := dictGet result "sources_gathered" (.list [])
  let sourcesText ←
    if truthy sources then
      (pyIter sources).map
        (fun items => String.intercalate "\n" (items.map (fun s => "- " ++ pyStr s)))
    else
      pure "No sources gathered"
  let loopCount := dictGet result "research_loop_count" (.int 0)
  let status := "✅ Research complete! Conducted " ++ pyStr loopCount ++ " research loops."
  pure ⟨report, sourcesText, loopCount, status⟩

/-- An uploaded file handle: its path/display name and the outcome of
`open(file_path.name).read()` — `Except.ok text` when the file reads and
decodes, `Except.error reason` when that raises (line 107-110). -/
structure UploadedFile where
  name : String
  content : Except String String

/-- Split a character list on a separator character (auxiliary for
`basename`); the result is always non-empty. -/
def splitOnChar (sep : Char) : List Char → List (List Char)
  | [] => [[]]
  | c :: rest =>
    let r := splitOnChar sep rest
    if c = sep then [] :: r
    else
      match r with
      | [] => [[c]]
      | h :: t => (c :: h) :: t

/-- `os.path.basename` (POSIX): the part after the last `/`. -/
def basename (p : String) : String :=
  String.mk ((splitOnChar '/' p.data).getLastD p.data)

/-- The labelled block appended for one successfully read file
(line 109): `f"=== File: {os.path.basename(file_path.name)} ===\n{content}\n"`. -/
def fileEntry (f : UploadedFile) (content : String) : String :=
  "=== File: " ++ basename f.name ++ " ===\n" ++ content ++ "\n"

/-- The per-file loop of lines 104-111: returns
`(file_contents, logged warnings)` in original order; a failing file is
skipped with a warning and never aborts the rest. -/
def processFiles : List UploadedFile → List String × List String
  | [] => ([], [])
  | f :: rest =>
    let r := processFiles rest
    match f.content with
    | .ok c => (fileEntry f c :: r.1, r.2)
    | .error e => (r.1, ("Could not read file " ++ f.name ++ ": " ++ e) :: r.2)

/-- The argument record of the single engine call
`ResearchService.conduct_research(...)` (lines 136-145).  Note there is no
loop-count field: `max_loops` reaches the engine only via the environment. -/
structure EngineCall where
  query : String
  extra_effort : Bool
  minimum_effort : Bool
  provider : String
  model : String
  streaming : Bool
  uploaded_data_content : Option String
  steering_enabled : Bool

/-- Observable outcome of one `conduct_research` invocation. -/
structure RunTrace where
  /-- The returned `(report, sources, status_message)` triple; the first
  component is a `Value` because the code returns `result.get(...)` as-is. -/
  output : Value × String × String
  /-- Engine calls made, in order. -/
  engineCalls : List EngineCall
  /-- `os.environ[k] = v` writes performed, in order (lines 117-119). -/
  envWrites : List (String × String)
  /-- `progress(fraction, desc=label)` events emitted, in order. -/
  progressEvents : List (ℚ × String)
  /-- Messages passed to `logger.warning` (line 111). -/
  logWarnings : List String

/-- Python truthiness of the `uploaded_files` argument (`if uploaded_files:`,
line 102): `None` and the empty list are falsy. -/
def filesPresent (u : Option (List UploadedFile)) : Bool :=
  !(u.getD []).isEmpty

/-- The guard of line 93, `not query or not query.strip()`: true exactly when
the query is empty or consists only of whitespace characters. -/
def isBlank (s : String) : Bool :=
  s.data.all Char.isWhitespace

/-- Lines 101-114: the value of the local `uploaded_data_content` after the
file-processing block — `None` when no file was read successfully, else the
successful file blocks joined with `"\n\n"`.  (When `uploaded_files` is
falsy the block is skipped and the initial `None` survives; `processFiles`
of the empty list yields no contents, so the two cases coincide.) -/
def uploadedDataContent (uploaded_files : Option (List UploadedFile)) : Option String :=
  let ingested := processFiles (uploaded_files.getD [])
  if ingested.1.isEmpty then none
  else some (String.intercalate "\n\n" ingested.1)

/-- The argument record of the engine call of lines 136-145 as a function of
the inputs of `conduct_research`. -/
def engineCallOf (query : String) (provider : String) (model : String)
    (extra_effort : Bool) (minimum_effort : Bool) (enable_steering : Bool)
    (uploaded_files : Option (List UploadedFile)) : EngineCall :=
  { query := query, extra_effort := extra_effort, minimum_effort := minimum_effort,
    provider := provider, model := model, streaming := false,
    uploaded_data_content := uploadedDataContent uploaded_files,
    steering_enabled := enable_steering }

/-- The three `os.environ[...] = ...` writes of lines 117-119, in order. -/
def envWritesOf (provider : String) (model : String) (max_loops : Int) :
    List (String × String) :=
  [("LLM_PROVIDER", provider), ("LLM_MODEL", model),
   ("MAX_WEB_RESEARCH_LOOPS", toString max_loops)]

/-- The progress events emitted before the engine call: 0.1 (line 97),
0.2 only when `uploaded_files` is truthy (line 103), 0.3 (line 121). -/
def milestonesBefore (u : Option (List UploadedFile)) : List (ℚ × String) :=
  (if filesPresent u then
    [(mkRat 1 10, "Initializing research..."), (mkRat 2 10, "Processing uploaded files...")]
  else
    [(mkRat 1 10, "Initializing research...")])
  ++ [(mkRat 3 10, "Starting deep research...")]

/-- Shallow embedding of `conduct_research` (gradio_app.py lines 65-161).

The engine is a parameter; everything else follows the source line by line:
empty/whitespace query short-circuit (93-94), progress 0.1 (97), file
processing with 0.2 (100-114), the three environment-variable writes
(116-119), progress 0.3 (121), the single engine call (136-145), progress
1.0 (147), result extraction (149-155), and the catch-all exception handler
(159-161) which converts an engine (or extraction) exception `e` into
`("", "", f"❌ Error during research: {e}")`. -/
def conduct_research
    (engine : EngineCall → Except String PyDict)
    (query : String) (provider : String) (model : String) (max_loops : Int)
    (extra_effort : Bool) (minimum_effort : Bool) (enable_steering : Bool)
    (uploaded_files : Option (List UploadedFile)) : RunTrace :=
  if isBlank query then
    { output := (Value.str "", "", "❌ Please enter a research query"),
      engineCalls := [], envWrites := [], progressEvents := [], logWarnings := [] }
  else
    let ingested := processFiles (uploaded_files.getD [])
    let envW := envWritesOf provider model max_loops
    let events3 := milestonesBefore uploaded_files
    let call := engineCallOf query provider model extra_effort minimum_effort
      enable_steering uploaded_files
    match engine call with
    | .error e =>
      { output := (Value.str "", "", "❌ Error during research: " ++ e),
        engineCalls := [call], envWrites := envW, progressEvents := events3,
        logWarnings := ingested.2 }
    | .ok raw =>
      let events4 := events3 ++ [((1 : ℚ), "Research complete!")]
      match extractResults raw with
      | .error e =>
        { output := (Value.str "", "", "❌ Error during research: " ++ e),
          engineCalls := [call], envWrites := envW, progressEvents := events4,
          logWarnings := ingested.2 }
      | .ok ex =>
        { output := (ex.report, ex.sourcesText, ex.status),
          engineCalls := [call], envWrites := envW, progressEvents := events4,
          logWarnings := ingested.2 }

/-- The provider catalog (gradio_app.py lines 51-57), as an ordered
association list. -/
def PROVIDERS : List (String × List String) :=
  [("openai", ["o4-mini", "o4-mini-high", "o3-mini", "o3-mini-reasoning", "gpt-4o"]),
   ("anthropic", ["claude-sonnet-4", "claude-sonnet-4-thinking", "claude-3-7-sonnet",
                  "claude-3-7-sonnet-thinking"]),
   ("google", ["gemini-2.5-pro", "gemini-1.5-pro-latest", "gemini-1.5-flash-latest"]),
   ("groq", ["deepseek-r1-distill-llama-70b", "llama-3.3-70b-versatile", "llama3-70b-8192"]),
   ("sambanova", ["DeepSeek-V3-0324"])]

/-- Catalog lookup: `PROVIDERS[provider]` when the key exists. -/
def lookupProvider (provider : String) : Option (List String) :=
  (PROVIDERS.find? (fun e => e.1 == provider)).map (fun e => e.2)

/-- `get_models_for_provider` (lines 60-62):
`return PROVIDERS.get(provider, ["default"])`. -/
def get_models_for_provider (provider : String) : List String :=
  (lookupProvider provider).getD ["default"]

/-- `update_models` (lines 341-344): returns the dropdown's
`(choices, value)` where `value = models[0]` (`none` models the
`IndexError` Python would raise on an empty list). -/
def update_models (provider : String) : List String × Option String :=
  let models := get_models_for_provider provider
  (models, models.head?)

/-- A stub engine that succeeds with a fixed raw result mapping. -/
def stubEngine (raw : PyDict) : EngineCall → Except String PyDict :=
  fun _ => .ok raw

/-- The sequence of progress fractions of one invocation. -/
def fractions (t : RunTrace) : List ℚ :=
  t.progressEvents.map Prod.fst

/-! ### Shared lemmas about `conduct_research` -/

theorem run_blank (engine : EngineCall → Except String PyDict)
    (query provider model : String) (max_loops : Int) (ee me st : Bool)
    (files : Option (List UploadedFile)) (h : isBlank query = true) :
    conduct_research engine query provider model max_loops ee me st files =
      { output := (Value.str "", "", "❌ Please enter a research query"),
        engineCalls := [], envWrites := [], progressEvents := [], logWarnings := [] } := by
  unfold conduct_research
  simp [h]

theorem run_engineCalls (engine : EngineCall → Except String PyDict)
    (query provider model : String) (max_loops : Int) (ee me st : Bool)
    (files : Option (List UploadedFile)) (h : isBlank query = false) :
    (conduct_research engine query provider model max_loops ee me st files).engineCalls =
      [engineCallOf query provider model ee me st files] := by
  unfold conduct_research
  simp only [h, Bool.false_eq_true, if_false]
  rcases engine (engineCallOf query provider model ee me st files) with e | raw
  · rfl
  · rcases hX : extractResults raw with e | ex <;> simp [hX]

theorem run_envWrites (engine : EngineCall → Except String PyDict)
    (query provider model : String) (max_loops : Int) (ee me st : Bool)
    (files : Option (List UploadedFile)) (h : isBlank query = false) :
    (conduct_research engine query provider model max_loops ee me st files).envWrites =
      envWritesOf provider model max_loops := by
  unfold conduct_research
  simp only [h, Bool.false_eq_true, if_false]
  rcases engine (engineCallOf query provider model ee me st files) with e | raw
  · rfl
  · rcases hX : extractResults raw with e | ex <;> simp [hX]

theorem run_logWarnings (engine : EngineCall → Except String PyDict)
    (query provider model : String) (max_loops : Int) (ee me st : Bool)
    (files : Option (List UploadedFile)) (h : isBlank query = false) :
    (conduct_research engine query provider model max_loops ee me st files).logWarnings =
      (processFiles (files.getD [])).2 := by
  unfold conduct_research
  simp only [h, Bool.false_eq_true, if_false]
  rcases engine (engineCallOf query provider model ee me st files) with e | raw
  · rfl
  · rcases hX : extractResults raw with e | ex <;> simp [hX]

theorem run_progress_disj (engine : EngineCall → Except String PyDict)
    (query provider model : String) (max_loops : Int) (ee me st : Bool)
    (files : Option (List UploadedFile)) (h : isBlank query = false) :
    (conduct_research engine query provider model max_loops ee me st files).progressEvents =
        milestonesBefore files ∨
      (conduct_research engine query provider model max_loops ee me st files).progressEvents =
        milestonesBefore files ++ [((1 : ℚ), "Research complete!")] := by
  unfold conduct_research
  simp only [h, Bool.false_eq_true, if_false]
  rcases engine (engineCallOf query provider model ee me st files) with e | raw
  · left; rfl
  · rcases hX : extractResults raw with e | ex <;> simp [hX]

theorem run_output_error (engine : EngineCall → Except String PyDict)
    (query provider model : String) (max_loops : Int) (ee me st : Bool)
    (files : Option (List UploadedFile)) (e : String) (h : isBlank query = false)
    (hE : engine (engineCallOf query provider model ee me st files) = .error e) :
    (conduct_research engine query provider model max_loops ee me st files).output =
      (Value.str "", "", "❌ Error during research: " ++ e) := by
  unfold conduct_research
  simp only [h, Bool.false_eq_true, if_false]
  rw [hE]

theorem run_output_ok (engine : EngineCall → Except String PyDict)
    (query provider model : String) (max_loops : Int) (ee me st : Bool)
    (files : Option (List UploadedFile)) (raw : PyDict) (ex : Extracted)
    (h : isBlank query = false)
    (hE : engine (engineCallOf query provider model ee me st files) = .ok raw)
    (hX : extractResults raw = .ok ex) :
    (conduct_research engine query provider model max_loops ee me st files).output =
      (ex.report, ex.sourcesText, ex.status) := by
  unfold conduct_research
  simp only [h, Bool.false_eq_true, if_false]
  rw [hE]
  simp [hX]

/-! ### Rational milestone values: the `0.x` literals equal the embedded
`mkRat` values. -/

theorem tenth_one : (0.1 : ℚ) = mkRat 1 10 := by norm_num

theorem tenth_two : (0.2 : ℚ) = mkRat 2 10 := by norm_num

theorem tenth_three : (0.3 : ℚ) = mkRat 3 10 := by norm_num

theorem one_point_zero : (1.0 : ℚ) = 1 := by norm_num

/-! ### Ingestion characterization -/

theorem processFiles_contents (files : List UploadedFile) :
    (processFiles files).1 =
      files.filterMap (fun f => f.content.toOption.map (fileEntry f)) := by
  induction files with
  | nil => rfl
  | cons f rest ih =>
    rcases f with ⟨n, c⟩
    rcases c with e | c <;> simp [processFiles, Except.toOption, ih]

theorem processFiles_warnings_length (files : List UploadedFile) :
    (processFiles files).2.length =
      (files.filter (fun f => f.content.toOption.isNone)).length := by
  induction files with
  | nil => rfl
  | cons f rest ih =>
    rcases f with ⟨n, c⟩
    rcases c with e | c <;> simp [processFiles, Except.toOption, ih]

/-! ### Claims -/

/-- C1, counterexample.  The claim says no research invocation writes
provider, model, or loop count into process-wide shared mutable state
(environment variables) before or during its engine call.  On the concrete
invocation (query "quantum computing trends", provider "openai", model
"o3-mini", 5 loops, no files), the code writes all three
(`os.environ[...] = ...`, gradio_app.py lines 117-119) before the engine
call: the provider write is in the trace's environment-write list. -/
theorem c1_counterexample :
    ("LLM_PROVIDER", "openai") ∈
      (conduct_research (stubEngine []) "quantum computing trends" "openai" "o3-mini" 5
        false false false none).envWrites := by
  decide

/-- C1, amended.  Every invocation that passes the empty-query check writes
the provider, model, and loop count into process-wide environment variables
(`LLM_PROVIDER`, `LLM_MODEL`, `MAX_WEB_RESEARCH_LOOPS`) before its engine
call, in addition to passing provider and model as engine-call arguments;
only the blank-query short circuit performs no such write. -/
theorem c1_claim (engine : EngineCall → Except String PyDict)
    (query provider model : String) (max_loops : Int) (ee me st : Bool)
    (files : Option (List UploadedFile)) (h : isBlank query = false) :
    (conduct_research engine query provider model max_loops ee me st files).envWrites =
      [("LLM_PROVIDER", provider), ("LLM_MODEL", model),
       ("MAX_WEB_RESEARCH_LOOPS", toString max_loops)] ∧
    (conduct_research engine query provider model max_loops ee me st files).engineCalls.map
        (fun c => (c.provider, c.model)) = [(provider, model)] := by
  refine ⟨?_, ?_⟩
  · rw [run_envWrites engine query provider model max_loops ee me st files h]; rfl
  · rw [run_engineCalls engine query provider model max_loops ee me st files h]; rfl

/-- C1, witness for the amended theorem at a concrete invocation. -/
theorem c1_witness :
    (conduct_research (stubEngine []) "q" "openai" "o3-mini" 7
        false false false none).envWrites =
      [("LLM_PROVIDER", "openai"), ("LLM_MODEL", "o3-mini"),
       ("MAX_WEB_RESEARCH_LOOPS", "7")] :=
  (c1_claim (stubEngine []) "q" "openai" "o3-mini" 7 false false false none
    (by decide)).1

/-- C2: an empty or whitespace-only query makes the invocation return
`("", "", "❌ Please enter a research query")` immediately — with zero
engine calls, zero environment writes, and zero progress events — for every
engine, provider, model, loop count, flag combination, and file list. -/
theorem c2_claim (engine : EngineCall → Except String PyDict)
    (query provider model : String) (max_loops : Int) (ee me st : Bool)
    (files : Option (List UploadedFile)) (h : isBlank query = true) :
    (conduct_research engine query provider model max_loops ee me st files).output =
      (Value.str "", "", "❌ Please enter a research query") ∧
    (conduct_research engine query provider model max_loops ee me st files).engineCalls =
      [] := by
  rw [run_blank engine query provider model max_loops ee me st files h]
  exact ⟨rfl, rfl⟩

/-- C2, witness: the whitespace-only query `"   "` with files attached. -/
theorem c2_witness :
    (conduct_research (stubEngine []) "   " "openai" "o3-mini" 5 true true true
        (some [⟨"a.txt", Except.ok "x"⟩])).output =
      (Value.str "", "", "❌ Please enter a research query") ∧
    (conduct_research (stubEngine []) "   " "openai" "o3-mini" 5 true true true
        (some [⟨"a.txt", Except.ok "x"⟩])).engineCalls = [] :=
  c2_claim (stubEngine []) "   " "openai" "o3-mini" 5 true true true
    (some [⟨"a.txt", Except.ok "x"⟩]) (by decide)

/-- C3, counterexample.  The claim says an unknown provider fails with
`UnknownProviderError` and the engine is called zero times.  In the code no
provider validation exists: with provider `"doesnotexist"` (not a catalog
key) the engine is called once and the invocation completes successfully. -/
theorem c3_counterexample :
    lookupProvider "doesnotexist" = none ∧
    (conduct_research (stubEngine []) "q" "doesnotexist" "m" 5 false false false
        none).engineCalls.length = 1 ∧
    (conduct_research (stubEngine []) "q" "doesnotexist" "m" 5 false false false
        none).output.2.2 = "✅ Research complete! Conducted 0 research loops." := by
  refine ⟨by decide, by decide, rfl⟩

/-- C3, amended.  A provider string that is not a key of the provider
catalog is not rejected: the invocation (with a non-blank query) calls the
engine exactly once, passing the provider string through unchanged; no
`UnknownProviderError` exists in the code. -/
theorem c3_claim (engine : EngineCall → Except String PyDict)
    (query provider model : String) (max_loops : Int) (ee me st : Bool)
    (files : Option (List UploadedFile)) (_hp : lookupProvider provider = none)
    (h : isBlank query = false) :
    (conduct_research engine query provider model max_loops ee me st files).engineCalls.map
      (fun c => c.provider) = [provider] := by
  rw [run_engineCalls engine query provider model max_loops ee me st files h]
  rfl

/-- C3, witness for the amended theorem. -/
theorem c3_witness :
    (conduct_research (stubEngine []) "q" "doesnotexist" "m" 5 false false false
        none).engineCalls.map (fun c => c.provider) = ["doesnotexist"] :=
  c3_claim (stubEngine []) "q" "doesnotexist" "m" 5 false false false none
    (by decide) (by decide)

/-- C4, counterexample.  The claim says the loop count passed toward the
engine is 1 whenever `minimum_effort` is true and is always clamped into
`[1, 20]`.  On the concrete invocation with `max_loops = 25` and
`minimum_effort = true`, the only loop count passed toward the engine is
the environment write `MAX_WEB_RESEARCH_LOOPS = "25"` — not `"1"`, and
outside `[1, 20]`. -/
theorem c4_counterexample :
    (conduct_research (stubEngine []) "q" "openai" "o3-mini" 25 false true false
        none).envWrites =
      [("LLM_PROVIDER", "openai"), ("LLM_MODEL", "o3-mini"),
       ("MAX_WEB_RESEARCH_LOOPS", "25")] ∧
    ¬ ((25 : Int) ≤ 20) ∧ ("25" : String) ≠ "1" := by
  refine ⟨by decide, by decide, by decide⟩

/-- C4, amended.  No loop-count resolution happens in this layer: for every
non-failing invocation, `max_loops` is passed toward the engine unmodified
(as the string written to `MAX_WEB_RESEARCH_LOOPS`) and the
`minimum_effort` flag is forwarded to the engine unmodified; no clamping
into `[1, 20]` and no forcing to 1 occurs (the UI slider, not this
function, restricts the value to `[1, 20]`). -/
theorem c4_claim (engine : EngineCall → Except String PyDict)
    (query provider model : String) (max_loops : Int) (ee me st : Bool)
    (files : Option (List UploadedFile)) (h : isBlank query = false) :
    ("MAX_WEB_RESEARCH_LOOPS", toString max_loops) ∈
      (conduct_research engine query provider model max_loops ee me st files).envWrites ∧
    (conduct_research engine query provider model max_loops ee me st files).engineCalls.map
      (fun c => c.minimum_effort) = [me] := by
  refine ⟨?_, ?_⟩
  · rw [run_envWrites engine query provider model max_loops ee me st files h]
    simp [envWritesOf]
  · rw [run_engineCalls engine query provider model max_loops ee me st files h]
    rfl

/-- C4, witness for the amended theorem. -/
theorem c4_witness :
    ("MAX_WEB_RESEARCH_LOOPS", "25") ∈
      (conduct_research (stubEngine []) "q" "openai" "o3-mini" 25 false true false
        none).envWrites ∧
    (conduct_research (stubEngine []) "q" "openai" "o3-mini" 25 false true false
        none).engineCalls.map (fun c => c.minimum_effort) = [true] :=
  c4_claim (stubEngine []) "q" "openai" "o3-mini" 25 false true false none (by decide)

/-- A sample file whose read succeeds. -/
def goodFile : UploadedFile := ⟨"/tmp/a.txt", Except.ok "hello"⟩

/-- A sample file whose read raises (reason "boom"). -/
def badFile : UploadedFile := ⟨"/tmp/b.txt", Except.error "boom"⟩

/-- C5, counterexample.  The claim says the M per-file skip warnings are
recorded in the returned result, not merely logged.  Concretely: two
invocations, one with an extra failing file (`M = 1`) and one without
(`M = 0`), return exactly the same `(report, sources, status)` triple — the
skip `(filename, reason)` reaches only the logger — so no warning is
recorded in the returned result. -/
theorem c5_counterexample :
    (conduct_research (stubEngine []) "q" "openai" "o3-mini" 5 false false false
        (some [goodFile, badFile])).output =
      (conduct_research (stubEngine []) "q" "openai" "o3-mini" 5 false false false
        (some [goodFile])).output ∧
    (conduct_research (stubEngine []) "q" "openai" "o3-mini" 5 false false false
        (some [goodFile, badFile])).logWarnings.length = 1 ∧
    (conduct_research (stubEngine []) "q" "openai" "o3-mini" 5 false false false
        (some [goodFile])).logWarnings.length = 0 :=
  ⟨rfl, rfl, rfl⟩

/-- C5, amended.  Ingestion of N files of which M fail produces exactly the
N−M successfully read documents, in original upload order (as the
`file_contents` blocks), and exactly M skip warnings — but the warnings are
only logged (`logger.warning`), never recorded in the returned result; a
failing file never aborts ingestion of the rest. -/
theorem c5_claim (engine : EngineCall → Except String PyDict)
    (query provider model : String) (max_loops : Int) (ee me st : Bool)
    (files : List UploadedFile) (h : isBlank query = false) :
    (processFiles files).1 =
      files.filterMap (fun f => f.content.toOption.map (fileEntry f)) ∧
    (processFiles files).2.length =
      (files.filter (fun f => f.content.toOption.isNone)).length ∧
    (conduct_research engine query provider model max_loops ee me st
        (some files)).logWarnings = (processFiles files).2 := by
  refine ⟨processFiles_contents files, processFiles_warnings_length files, ?_⟩
  rw [run_logWarnings engine query provider model max_loops ee me st (some files) h]
  rfl

/-- C5, witness for the amended theorem: 3 files, 1 failing. -/
theorem c5_witness :
    (processFiles [goodFile, badFile, ⟨"c.txt", Except.ok "z"⟩]).1 =
      ["=== File: a.txt ===\nhello\n", "=== File: c.txt ===\nz\n"] ∧
    (processFiles [goodFile, badFile, ⟨"c.txt", Except.ok "z"⟩]).2.length = 1 ∧
    (conduct_research (stubEngine []) "q" "openai" "o3-mini" 5 false false false
        (some [goodFile, badFile, ⟨"c.txt", Except.ok "z"⟩])).logWarnings =
      (processFiles [goodFile, badFile, ⟨"c.txt", Except.ok "z"⟩]).2 :=
  c5_claim (stubEngine []) "q" "openai" "o3-mini" 5 false false false
    [goodFile, badFile, ⟨"c.txt", Except.ok "z"⟩] (by decide)

/-- C6: every error raised by the engine call is caught at the bridge
boundary — `conduct_research` still returns a triple whose report and
sources are empty strings and whose status is the human-readable message
`"❌ Error during research: " ++ e`; nothing propagates uncaught (the
embedding is a total function into `RunTrace`). -/
theorem c6_claim (engine : EngineCall → Except String PyDict)
    (query provider model : String) (max_loops : Int) (ee me st : Bool)
    (files : Option (List UploadedFile)) (e : String) (h : isBlank query = false)
    (hE : engine (engineCallOf query provider model ee me st files) = .error e) :
    (conduct_research engine query provider model max_loops ee me st files).output =
      (Value.str "", "", "❌ Error during research: " ++ e) :=
  run_output_error engine query provider model max_loops ee me st files e h hE

/-- C6, witness: an engine that always raises `"boom"`. -/
theorem c6_witness :
    (conduct_research (fun _ => Except.error "boom") "q" "openai" "o3-mini" 5
        false false false none).output =
      (Value.str "", "", "❌ Error during research: boom") :=
  c6_claim (fun _ => Except.error "boom") "q" "openai" "o3-mini" 5
    false false false none "boom" (by decide) rfl

/-- C7, counterexample.  The claim says result formatting never raises on
missing **or mistyped** fields.  A present but mistyped `sources_gathered`
(the integer 2: truthy yet not iterable) makes the extraction block raise
`TypeError` — in the code this exception is caught by the outer handler of
line 159, so the placeholder-formatted result is never produced. -/
theorem c7_counterexample :
    extractResults [("sources_gathered", Value.int 2)] =
      .error "TypeError: \x27int\x27 object is not iterable" :=
  rfl

/-- C7, amended.  Result formatting never raises on *missing* fields — and
on mistyped fields only when the `sources_gathered` value is truthy and
non-iterable: whenever the `sources_gathered` field is absent, falsy, or
iterable, extraction returns a result in which a missing `running_summary`
yields the placeholder `"No report generated"`, a missing
`sources_gathered` renders as `"No sources gathered"`, and a missing
`research_loop_count` yields the integer 0. -/
theorem c7_claim (d : PyDict)
    (hiter : ∀ v, lookupKey d "sources_gathered" = some v → truthy v = true →
      (pyIter v).isOk = true) :
    ∃ ex, extractResults d = .ok ex ∧
      (lookupKey d "running_summary" = none → ex.report = .str "No report generated") ∧
      (lookupKey d "sources_gathered" = none → ex.sourcesText = "No sources gathered") ∧
      (lookupKey d "research_loop_count" = none → ex.loopCount = .int 0) := by
  rcases hs : lookupKey d "sources_gathered" with _ | v
  · have hx : extractResults d =
        .ok ⟨dictGet d "running_summary" (.str "No report generated"), "No sources gathered",
          dictGet d "research_loop_count" (.int 0),
          "✅ Research complete! Conducted " ++
            pyStr (dictGet d "research_loop_count" (.int 0)) ++ " research loops."⟩ := by
      unfold extractResults
      simp [dictGet, hs, truthy, pure, Except.pure, Bind.bind, Except.bind]
    exact ⟨_, hx, fun h => by simp [dictGet, h], fun _ => rfl,
      fun h => by simp [dictGet, h]⟩
  · by_cases ht : truthy v
    · have hok := hiter v hs ht
      rcases hi : pyIter v with e | items
      · rw [hi] at hok; simp [Except.isOk, Except.toBool] at hok
      · have hx : extractResults d =
            .ok ⟨dictGet d "running_summary" (.str "No report generated"),
              String.intercalate "\n" (items.map (fun s => "- " ++ pyStr s)),
              dictGet d "research_loop_count" (.int 0),
              "✅ Research complete! Conducted " ++
                pyStr (dictGet d "research_loop_count" (.int 0)) ++ " research loops."⟩ := by
          unfold extractResults
          simp [dictGet, hs, ht, hi, Except.map, pure, Except.pure, Bind.bind, Except.bind]
        exact ⟨_, hx, fun h => by simp [dictGet, h], fun h => by simp [hs] at h,
          fun h => by simp [dictGet, h]⟩
    · have hx : extractResults d =
          .ok ⟨dictGet d "running_summary" (.str "No report generated"), "No sources gathered",
            dictGet d "research_loop_count" (.int 0),
            "✅ Research complete! Conducted " ++
              pyStr (dictGet d "research_loop_count" (.int 0)) ++ " research loops."⟩ := by
        unfold extractResults
        simp [dictGet, hs, ht, pure, Except.pure, Bind.bind, Except.bind]
      exact ⟨_, hx, fun h => by simp [dictGet, h], fun _ => rfl,
        fun h => by simp [dictGet, h]⟩

/-- C7, witness: the empty result mapping (all three fields missing) — the
extraction succeeds, and all three defaults are delivered. -/
theorem c7_witness :
    extractResults [] =
      .ok ⟨Value.str "No report generated", "No sources gathered", Value.int 0,
        "✅ Research complete! Conducted 0 research loops."⟩ ∧
    (extractResults ([] : PyDict)).isOk = true := by
  have h := c7_claim [] (by intro v hv; simp [lookupKey] at hv)
  obtain ⟨ex, hx, -, -, -⟩ := h
  exact ⟨rfl, by rw [hx]; rfl⟩

/-- Extraction of a well-formed raw result: a string report, a list of
string sources, an integer loop count. -/
theorem extract_wellformed (rep : String) (ss : List String) (lc : Int) (hs : ss ≠ []) :
    extractResults
      [("running_summary", Value.str rep),
       ("sources_gathered", Value.list (ss.map Value.str)),
       ("research_loop_count", Value.int lc)] =
      .ok ⟨Value.str rep, String.intercalate "\n" (ss.map (fun s => "- " ++ s)),
        Value.int lc,
        "✅ Research complete! Conducted " ++ toString lc ++ " research loops."⟩ := by
  have hne : (ss.map Value.str).isEmpty = false := by
    cases ss with
    | nil => exact absurd rfl hs
    | cons a t => rfl
  unfold extractResults
  simp [dictGet, lookupKey, List.find?, truthy, hne, pyIter, Except.map, pure, Except.pure,
    Bind.bind, Except.bind, pyStr, List.map_map, Function.comp]
  rfl

/-- C8: for every invocation (non-blank query, no files) whose engine
result carries a report string, a non-empty list of source strings, and an
integer loop count, the returned report is exactly the engine's report, the
returned sources string is one `"- "` bullet line per source joined by
newlines in the order received, and the returned status is
`"✅ Research complete! Conducted {loopCount} research loops."` — which
contains the loop count and the completion indicator. -/
theorem c8_claim (query provider model : String) (max_loops : Int) (ee me st : Bool)
    (rep : String) (ss : List String) (lc : Int)
    (h : isBlank query = false) (hs : ss ≠ []) :
    (conduct_research
        (stubEngine
          [("running_summary", Value.str rep),
           ("sources_gathered", Value.list (ss.map Value.str)),
           ("research_loop_count", Value.int lc)])
        query provider model max_loops ee me st none).output =
      (Value.str rep, String.intercalate "\n" (ss.map (fun s => "- " ++ s)),
        "✅ Research complete! Conducted " ++ toString lc ++ " research loops.") :=
  run_output_ok
    (stubEngine
      [("running_summary", Value.str rep),
       ("sources_gathered", Value.list (ss.map Value.str)),
       ("research_loop_count", Value.int lc)])
    query provider model max_loops ee me st none
    [("running_summary", Value.str rep),
     ("sources_gathered", Value.list (ss.map Value.str)),
     ("research_loop_count", Value.int lc)]
    ⟨Value.str rep, String.intercalate "\n" (ss.map (fun s => "- " ++ s)),
      Value.int lc, "✅ Research complete! Conducted " ++ toString lc ++ " research loops."⟩
    h rfl (extract_wellformed rep ss lc hs)

/-- C8, witness: the end-to-end example of spec §8 — query
"quantum computing trends", provider "openai", model "o3-mini", 5 loops,
no flags, no files; the engine returns report "Report body", sources
`["https://a.com", "https://b.com"]`, loop count 5. -/
theorem c8_witness :
    (conduct_research
        (stubEngine
          [("running_summary", Value.str "Report body"),
           ("sources_gathered", Value.list (["https://a.com", "https://b.com"].map Value.str)),
           ("research_loop_count", Value.int 5)])
        "quantum computing trends" "openai" "o3-mini" 5 false false false none).output =
      (Value.str "Report body", "- https://a.com\n- https://b.com",
        "✅ Research complete! Conducted 5 research loops.") :=
  c8_claim "quantum computing trends" "openai" "o3-mini" 5 false false false
    "Report body" ["https://a.com", "https://b.com"] 5 (by decide) (by decide)

/-- C9, counterexample.  The claim says the 0.2 "processing uploaded files"
milestone is emitted exactly when uploaded documents are present, within
every invocation.  On the concrete invocation with an empty query and one
uploaded file, documents are present but the blank-query short circuit
emits no progress events at all — so the "exactly when" biconditional
fails. -/
theorem c9_counterexample :
    filesPresent (some [goodFile]) = true ∧
    (conduct_research (stubEngine []) "" "openai" "o3-mini" 5 false false false
        (some [goodFile])).progressEvents = [] :=
  ⟨rfl, rfl⟩

/-- C9, amended.  Within every invocation the emitted progress fractions
are monotonically non-decreasing and drawn only from the fixed advisory
milestones 0.1, 0.2, 0.3, 1; for the invocations that pass the blank-query
check, 0.2 is emitted exactly when uploaded files are present; a blank
query emits no events at all. -/
theorem c9_claim (engine : EngineCall → Except String PyDict)
    (query provider model : String) (max_loops : Int) (ee me st : Bool)
    (files : Option (List UploadedFile)) :
    List.Chain' (· ≤ ·)
      (fractions (conduct_research engine query provider model max_loops ee me st files)) ∧
    (∀ x ∈ fractions (conduct_research engine query provider model max_loops ee me st files),
      x = (0.1 : ℚ) ∨ x = (0.2 : ℚ) ∨ x = (0.3 : ℚ) ∨ x = 1) ∧
    (isBlank query = false →
      (((0.2 : ℚ) ∈
          fractions (conduct_research engine query provider model max_loops ee me st files)) ↔
        filesPresent files = true)) ∧
    (isBlank query = true →
      fractions (conduct_research engine query provider model max_loops ee me st files) = []) := by
  by_cases hb : isBlank query = true
  · rw [run_blank engine query provider model max_loops ee me st files hb]
    refine ⟨?_, ?_, ?_, ?_⟩
    · simp [fractions]
    · simp [fractions]
    · intro h; rw [h] at hb; cases hb
    · intro _; rfl
  · have hb' : isBlank query = false := by
      cases hq : isBlank query
      · rfl
      · exact absurd hq hb
    simp only [tenth_one, tenth_two, tenth_three]
    rcases run_progress_disj engine query provider model max_loops ee me st files hb' with
      hP | hP <;> by_cases hf : filesPresent files = true
    · have hfr : fractions (conduct_research engine query provider model max_loops ee me st
          files) = [mkRat 1 10, mkRat 2 10, mkRat 3 10] := by
        simp [fractions, hP, milestonesBefore, hf]
      rw [hfr]
      exact ⟨by simp only [List.chain'_cons, List.chain'_singleton, and_true]; exact ⟨by decide, by decide⟩,
        by decide, fun _ => ⟨fun _ => hf, fun _ => by decide⟩,
        fun hq => absurd hq (by simp [hb'])⟩
    · have hfr : fractions (conduct_research engine query provider model max_loops ee me st
          files) = [mkRat 1 10, mkRat 3 10] := by
        simp [fractions, hP, milestonesBefore, hf]
      rw [hfr]
      exact ⟨by simp only [List.chain'_cons, List.chain'_singleton, and_true]; decide,
        by decide, fun _ => ⟨fun hmem => absurd hmem (by decide), fun hx => absurd hx hf⟩,
        fun hq => absurd hq (by simp [hb'])⟩
    · have hfr : fractions (conduct_research engine query provider model max_loops ee me st
          files) = [mkRat 1 10, mkRat 2 10, mkRat 3 10, 1] := by
        simp [fractions, hP, milestonesBefore, hf]
      rw [hfr]
      exact ⟨by simp only [List.chain'_cons, List.chain'_singleton, and_true]; exact ⟨by decide, by decide, by decide⟩,
        by decide, fun _ => ⟨fun _ => hf, fun _ => by decide⟩,
        fun hq => absurd hq (by simp [hb'])⟩
    · have hfr : fractions (conduct_research engine query provider model max_loops ee me st
          files) = [mkRat 1 10, mkRat 3 10, 1] := by
        simp [fractions, hP, milestonesBefore, hf]
      rw [hfr]
      exact ⟨by simp only [List.chain'_cons, List.chain'_singleton, and_true]; exact ⟨by decide, by decide⟩,
        by decide, fun _ => ⟨fun hmem => absurd hmem (by decide), fun hx => absurd hx hf⟩,
        fun hq => absurd hq (by simp [hb'])⟩

/-- C9, witness: a non-blank query with one uploaded file does emit the
0.2 milestone. -/
theorem c9_witness :
    (0.2 : ℚ) ∈ fractions (conduct_research (stubEngine []) "q" "openai" "o3-mini" 5
      false false false (some [goodFile])) :=
  ((c9_claim (stubEngine []) "q" "openai" "o3-mini" 5 false false false
      (some [goodFile])).2.2.1 (by decide)).mpr (by decide)

/-- C10: for a provider that is a catalog key, `get_models_for_provider`
returns that provider's ordered model list; for any other string it
returns `["default"]` instead of failing; in both cases the returned list
is non-empty and `update_models` selects exactly its first element as the
dropdown value. -/
theorem c10_claim (provider : String) :
    (∀ ms, lookupProvider provider = some ms → get_models_for_provider provider = ms) ∧
    (lookupProvider provider = none → get_models_for_provider provider = ["default"]) ∧
    ∃ m rest, get_models_for_provider provider = m :: rest ∧
      update_models provider = (m :: rest, some m) := by
  refine ⟨fun ms h => by simp [get_models_for_provider, h],
    fun h => by simp [get_models_for_provider, h], ?_⟩
  rcases h : lookupProvider provider with _ | ms
  · exact ⟨"default", [], by simp [get_models_for_provider, h],
      by simp [update_models, get_models_for_provider, h]⟩
  · have hmem : ms ∈ PROVIDERS.map (fun e => e.2) := by
      rcases hf : PROVIDERS.find? (fun e => e.1 == provider) with _ | e
      · simp [lookupProvider, hf] at h
      · have he := List.mem_of_find?_eq_some hf
        have he2 : e.2 = ms := by simpa [lookupProvider, hf] using h
        exact he2 ▸ List.mem_map_of_mem _ he
    have hne : ms ≠ [] := by
      have hall : ∀ l ∈ PROVIDERS.map (fun e => e.2), l ≠ [] := by decide
      exact hall ms hmem
    rcases ms with _ | ⟨m, rest⟩
    · exact absurd rfl hne
    · exact ⟨m, rest, by simp [get_models_for_provider, h],
        by simp [update_models, get_models_for_provider, h]⟩

/-- C10, witness: the known provider "openai" and the unknown provider
"notaprovider". -/
theorem c10_witness :
    get_models_for_provider "openai" =
      ["o4-mini", "o4-mini-high", "o3-mini", "o3-mini-reasoning", "gpt-4o"] ∧
    get_models_for_provider "notaprovider" = ["default"] ∧
    update_models "notaprovider" = (["default"], some "default") :=
  ⟨(c10_claim "openai").1 _ (by decide), (c10_claim "notaprovider").2.1 (by decide),
    by decide⟩

end EDR
